import Mathlib

/-!
Verification development for the TuJanTu trigger-ingestion and pipeline
orchestration subsystem.  The definitions below are a shallow embedding of
the Python sources:
  * `src/models/trigger.py`            — trigger entity and status machine
  * `src/api/triggers.py`              — human trigger creation
  * `src/utils/retry.py`               — retry helpers
  * `src/utils/circuit_breaker.py`     — circuit breaker
  * `src/pipeline/layer1_triggers/rss_poller.py` — dedup logic
  * `src/pipeline/orchestrator.py`     — pipeline orchestrator
Timestamps are modelled with explicit clock arguments (`Nat` for wall-clock
entity stamps, `ℚ` for the breaker's monotonic float clock).  Fallible
collaborator calls are modelled with `Except String`, the error value being
the Python exception's message string.
-/

namespace TuJ

/-- Occurrence of one character list inside another, used to state that a
recorded failure reason contains the original exception message. -/
def listOccurs (needle : List Char) : List Char → Bool
  | [] => needle.isEmpty
  | c :: rest => needle.isPrefixOf (c :: rest) || listOccurs needle rest

/-- String containment: `strContains needle hay` holds when `needle` occurs
contiguously inside `hay`. -/
def strContains (needle hay : String) : Bool :=
  listOccurs needle.data hay.data

/-! ### Trigger entity (src/models/trigger.py) -/

/-- Trigger source enumeration (`TriggerSource`). -/
inductive TriggerSource
  | nse_rss
  | bse_rss
  | human
deriving DecidableEq, Repr

/-- Trigger status enumeration (`TriggerStatus`). -/
inductive TriggerStatus
  | pending
  | filtered_out
  | gate_passed
  | analyzing
  | analyzed
  | assessing
  | assessed
  | reported
  | error
deriving DecidableEq, Repr

/-- Trigger priority enumeration (`TriggerPriority`). -/
inductive TriggerPriority
  | normal
  | high
deriving DecidableEq, Repr

/-- Gate decision dictionary returned by the filter, classifier, bypass and
error paths (the `{"passed", "reason", "method", "model"}` dict). -/
structure GateResult where
  passed : Bool
  reason : String
  method : String
  model : String
deriving DecidableEq, Repr

/-- One entry of `status_history` (`StatusTransition`). -/
structure StatusTransition where
  status : TriggerStatus
  timestamp : Nat
  reason : String
deriving DecidableEq, Repr

/-- The trigger entity (`TriggerEvent`), with datetimes modelled as `Nat`. -/
structure TriggerEvent where
  trigger_id : String
  source : TriggerSource
  source_url : Option String
  source_feed_title : Option String
  source_feed_published : Option Nat
  company_symbol : Option String
  company_name : Option String
  sector : Option String
  raw_content : String
  document_ids : List String
  priority : TriggerPriority
  triggered_by : Option String
  human_notes : Option String
  status : TriggerStatus
  status_history : List StatusTransition
  gate_result : Option GateResult
  created_at : Nat
  updated_at : Nat
deriving DecidableEq, Repr

/-- `TriggerEvent.set_status`: set the new status, stamp `updated_at`, and
append exactly one `StatusTransition` record.  The current time is passed
explicitly in place of `utc_now()`. -/
def TriggerEvent.set_status (t : TriggerEvent) (status : TriggerStatus)
    (reason : String) (now : Nat) : TriggerEvent :=
  { t with
    status := status
    updated_at := now
    status_history := t.status_history ++ [⟨status, now, reason⟩] }

/-- Apply a sequence of transitions through the single status-transition
operation; each list element is `(status, reason, now)`. -/
def applyTransitions (t : TriggerEvent)
    (l : List (TriggerStatus × String × Nat)) : TriggerEvent :=
  l.foldl (fun acc step => acc.set_status step.1 step.2.1 step.2.2) t

/-! ### Human trigger creation (src/api/triggers.py) -/

/-- Request payload of `POST /human` (`HumanTriggerRequest`). -/
structure HumanTriggerRequest where
  source_url : Option String
  company_symbol : Option String
  company_name : Option String
  content : String
  triggered_by : Option String
  notes : Option String
deriving DecidableEq, Repr

/-- `create_human_trigger`: build a high-priority human trigger (pydantic
defaults give status `pending` and empty history) and immediately perform
the `gate_passed` transition.  The generated uuid and `utc_now()` are passed
explicitly. -/
def create_human_trigger (payload : HumanTriggerRequest)
    (trigger_id : String) (now : Nat) : TriggerEvent :=
  let trigger : TriggerEvent :=
    { trigger_id := trigger_id
      source := TriggerSource.human
      source_url := payload.source_url
      source_feed_title := none
      source_feed_published := none
      company_symbol := payload.company_symbol
      company_name := payload.company_name
      sector := none
      raw_content := payload.content
      document_ids := []
      priority := TriggerPriority.high
      triggered_by := payload.triggered_by
      human_notes := payload.notes
      status := TriggerStatus.pending
      status_history := []
      gate_result := none
      created_at := now
      updated_at := now }
  trigger.set_status TriggerStatus.gate_passed
    "Human trigger bypasses Layer 2 gate" now

/-! ### Retry helpers (src/utils/retry.py)

An operation is modelled as a function from the 1-based call number to its
result, so that call-dependent behaviour ("fails twice then succeeds") is
expressible; the model additionally returns how many calls were made.
Backoff sleeps have no observable effect in the model. -/

/-- Loop of `retry_sync`: iterate over the attempt numbers
`range(1, attempts + 1)`, try the operation, re-raise when attempts are
exhausted or the error is not retriable, otherwise sleep and continue.
The second component of the result counts the calls made.  The empty-list
branch is the trailing unreachable `RuntimeError` raise. -/
def retrySyncLoop (op : Nat → Except String α) (attempts : Nat)
    (shouldRetry : String → Bool) : List Nat → Except String α × Nat
  | [] => (Except.error "retry_sync exhausted unexpectedly", attempts)
  | attempt :: rest =>
    match op attempt with
    | Except.ok v => (Except.ok v, attempt)
    | Except.error e =>
      if attempts ≤ attempt || shouldRetry e = false then
        (Except.error e, attempt)
      else
        retrySyncLoop op attempts shouldRetry rest

/-- `retry_sync`: retry a synchronous operation with exponential backoff;
`attempts <= 0` raises `ValueError`. -/
def retry_sync (op : Nat → Except String α) (attempts : Nat)
    (shouldRetry : String → Bool) : Except String α × Nat :=
  if attempts = 0 then (Except.error "attempts must be > 0", 0)
  else retrySyncLoop op attempts shouldRetry (List.range' 1 attempts)

/-- Loop of `retry_async`; identical control flow to `retry_sync`, with
`asyncio.sleep` in place of `time.sleep` (both unobservable here). -/
def retryAsyncLoop (op : Nat → Except String α) (attempts : Nat)
    (shouldRetry : String → Bool) : List Nat → Except String α × Nat
  | [] => (Except.error "retry_async exhausted unexpectedly", attempts)
  | attempt :: rest =>
    match op attempt with
    | Except.ok v => (Except.ok v, attempt)
    | Except.error e =>
      if attempts ≤ attempt || shouldRetry e = false then
        (Except.error e, attempt)
      else
        retryAsyncLoop op attempts shouldRetry rest

/-- `retry_async`: retry an async operation with exponential backoff. -/
def retry_async (op : Nat → Except String α) (attempts : Nat)
    (shouldRetry : String → Bool) : Except String α × Nat :=
  if attempts = 0 then (Except.error "attempts must be > 0", 0)
  else retryAsyncLoop op attempts shouldRetry (List.range' 1 attempts)

/-! ### Circuit breaker (src/utils/circuit_breaker.py)

The monotonic float clock is modelled as `ℚ`; every operation that reads the
clock takes `now` explicitly. -/

/-- In-memory circuit breaker state (`CircuitBreaker` instance fields). -/
structure CircuitBreaker where
  failure_threshold : Nat
  recovery_seconds : ℚ
  consecutive_failures : Nat
  opened_until : Option ℚ
deriving DecidableEq, Repr

/-- Constructor validation of `CircuitBreaker.__init__` (fresh counters). -/
def mkCircuitBreaker (failure_threshold : Nat) (recovery_seconds : ℚ) :
    Except String CircuitBreaker :=
  if failure_threshold = 0 then Except.error "failure_threshold must be > 0"
  else if recovery_seconds ≤ 0 then Except.error "recovery_seconds must be > 0"
  else Except.ok ⟨failure_threshold, recovery_seconds, 0, none⟩

/-- `CircuitBreaker.is_open`: true while before `opened_until`; at or after
that time, lazily reset `opened_until` and the failure counter and return
false.  Returns the result together with the updated state. -/
def CircuitBreaker.is_open (b : CircuitBreaker) (now : ℚ) :
    Bool × CircuitBreaker :=
  match b.opened_until with
  | none => (false, b)
  | some opened_until =>
    if opened_until ≤ now then
      (false, { b with opened_until := none, consecutive_failures := 0 })
    else
      (true, b)

/-- `CircuitBreaker.record_success`: reset the counter and close. -/
def CircuitBreaker.record_success (b : CircuitBreaker) : CircuitBreaker :=
  { b with consecutive_failures := 0, opened_until := none }

/-- `CircuitBreaker.record_failure`: increment the counter; once it reaches
the threshold, open until `now + recovery_seconds`. -/
def CircuitBreaker.record_failure (b : CircuitBreaker) (now : ℚ) :
    CircuitBreaker :=
  let b' := { b with consecutive_failures := b.consecutive_failures + 1 }
  if b.failure_threshold ≤ b'.consecutive_failures then
    { b' with opened_until := some (now + b.recovery_seconds) }
  else
    b'

/-- Fold `record_failure` over a list of call times. -/
def recordFailures (b : CircuitBreaker) (times : List ℚ) : CircuitBreaker :=
  times.foldl (fun acc t => acc.record_failure t) b

/-! ### Poller deduplication (src/pipeline/layer1_triggers/rss_poller.py)

The dedup-relevant parts of `ExchangeRSSPoller` are embedded.  Two library
calls are kept abstract as function parameters: `baseUrl` stands for
`_base_url_without_query` (urllib URL surgery) and `digest` for the sha256
hex digest used inside `_content_dedup_key`; the key-set construction and
the duplicate decision itself are embedded faithfully. -/

/-- String value of a `TriggerSource` enum member (`source.value`). -/
def sourceValue : TriggerSource → String
  | TriggerSource.nse_rss => "nse_rss"
  | TriggerSource.bse_rss => "bse_rss"
  | TriggerSource.human => "human"

/-- Normalized exchange announcement (`NormalizedAnnouncement`). -/
structure NormalizedAnnouncement where
  source : TriggerSource
  source_url : String
  title : String
  raw_content : String
  company_symbol : Option String
  company_name : Option String
  sector : Option String
  published_at : Option Nat
  document_urls : List String
deriving DecidableEq, Repr

/-- Whitespace normalization `" ".join(s.split())`. -/
def normalizeWs (s : String) : String :=
  String.intercalate " " ((s.split Char.isWhitespace).filter (fun piece => piece ≠ ""))

/-- `_content_dedup_key`: canonical lower-cased, whitespace-normalized
fingerprint input, hashed by the abstract `digest`. -/
def contentDedupKey (digest : String → String) (source title raw_content : String)
    (company_symbol : Option String) (published_at : Option Nat) : String :=
  let canonical := String.intercalate "|"
    [ source.trim.toLower,
      (company_symbol.getD "").trim.toUpper,
      (published_at.map (fun n => toString n)).getD "",
      (normalizeWs title).toLower,
      ((normalizeWs raw_content).toLower).take 512 ]
  "urn:tuj:dedup:" ++ digest canonical

/-- `_announcement_dedup_keys`: set of canonical source URL and its base
form, every document URL and its base form, and the content fingerprint,
with empty keys dropped (the final `if key` comprehension). -/
def announcementDedupKeys (baseUrl digest : String → String)
    (a : NormalizedAnnouncement) : Finset String :=
  let sourceKeys : List String :=
    if a.source_url ≠ "" then [a.source_url, baseUrl a.source_url] else []
  let docKeys : List String :=
    a.document_urls.flatMap (fun url => if url ≠ "" then [url, baseUrl url] else [])
  let contentKey :=
    contentDedupKey digest (sourceValue a.source) a.title a.raw_content
      a.company_symbol a.published_at
  ((sourceKeys ++ docKeys ++ [contentKey]).filter (fun key => key ≠ "")).toFinset

/-- Poller dedup state (`_known_dedup_keys`, `_supports_recent_listing`). -/
structure PollerState where
  known_dedup_keys : Finset String
  supports_recent_listing : Bool

/-- `MongoTriggerRepository.exists_by_url`: false for the empty string,
otherwise true exactly when some persisted trigger document has this
`source_url` field value. -/
def existsByUrl (store : List TriggerEvent) (source_url : String) : Bool :=
  if source_url = "" then false
  else store.any (fun t => decide (t.source_url = some source_url))

/-- `_is_duplicate`: duplicate when the key set intersects the in-memory
known keys; otherwise, when recent listing is unsupported, fall back to a
per-key store existence check, remembering the keys on a hit. -/
def isDuplicate (store : List TriggerEvent) (st : PollerState)
    (dedup_keys : Finset String) : Bool × PollerState :=
  if (dedup_keys ∩ st.known_dedup_keys).Nonempty then (true, st)
  else if st.supports_recent_listing = false then
    if (dedup_keys.filter (fun key => key ≠ "" ∧ existsByUrl store key = true)).Nonempty then
      (true, { st with known_dedup_keys := st.known_dedup_keys ∪ dedup_keys })
    else (false, st)
  else (false, st)

/-! ### Pipeline orchestrator (src/pipeline/orchestrator.py)

Stage collaborators are injected behaviours; a `none` collaborator is one
that was not configured.  A call either returns a value or raises, the
error string being the exception's message.  `documentStep` abstracts
`_process_documents` (document fetch / text extraction / embedding): the
claims exercise it only through the new `(document_ids, raw_content)` pair
it yields on success and its ability to raise.  Repository
`update_status` persistence is modelled as reliable; the recorded
transitions are accumulated in a trace. -/

/-- Structured deep-analysis result, as read by the orchestrator through
`getattr` (`significance`, `is_significant`). -/
structure Investigation where
  significance : String
  is_significant : Bool
deriving DecidableEq, Repr

/-- Decision assessment result as read by the orchestrator
(`new_recommendation`). -/
structure Assessment where
  new_recommendation : String
deriving DecidableEq, Repr

/-- `ReportDeliveryStatus` enum from src/models/report.py. -/
inductive ReportDeliveryStatus
  | generated
  | delivered
  | delivery_failed
deriving DecidableEq, Repr

/-- The fields of `AnalysisReport` that the orchestrator touches. -/
structure Report where
  report_id : String
  delivery_status : ReportDeliveryStatus
  delivered_via : List String
deriving DecidableEq, Repr

/-- Report repository behaviour reachable through a `report_repo`
attribute; `save` may raise. -/
structure ReportRepo where
  save : Report → Except String Unit

/-- Orchestrator configuration: injected collaborator behaviours
(`PipelineOrchestrator.__init__`).  `delivererReportRepo` and
`generatorReportRepo` are the `report_repo` attributes read by
`_persist_delivery_failure` via `getattr`. -/
structure Orchestrator where
  documentStep : TriggerEvent → Except String (List String × String)
  watchlistFilter : TriggerEvent → Except String GateResult
  gateClassifier : String → String → String → Except String GateResult
  deepAnalyzer : Option (TriggerEvent → Except String Investigation)
  decisionAssessor : Option (Investigation → Except String Assessment)
  reportGenerator : Option (Investigation → Assessment → Except String Report)
  reportDeliverer : Option (Report → Except String (List String))
  delivererReportRepo : Option ReportRepo
  generatorReportRepo : Option ReportRepo

/-- Number of calls made to each collaborator during one
`process_trigger` run. -/
structure StageCalls where
  filterCalls : Nat
  classifierCalls : Nat
  analyzeCalls : Nat
  assessCalls : Nat
  generateCalls : Nat
  deliverCalls : Nat
deriving DecidableEq, Repr

/-- Observable effects of one `process_trigger` run: the `update_status`
transitions in order, collaborator call counts, and reports successfully
persisted by `_persist_delivery_failure`. -/
structure RunTrace where
  statuses : List (TriggerStatus × String)
  calls : StageCalls
  savedReports : List Report
deriving DecidableEq, Repr

/-- `_run_gate`: human triggers bypass the gate with a fixed result;
otherwise the cheap watchlist filter runs and, only if it passes, the
expensive classifier.  Returns `(filter calls, classifier calls)` and the
gate outcome (or a raised exception). -/
def runGate (o : Orchestrator) (t : TriggerEvent) :
    (Nat × Nat) × Except String GateResult :=
  if t.source = TriggerSource.human then
    ((0, 0), Except.ok ⟨true, "Human trigger bypasses Layer 2 gate", "human_bypass", "n/a"⟩)
  else
    match o.watchlistFilter t with
    | Except.error e => ((1, 0), Except.error e)
    | Except.ok filter_result =>
      if filter_result.passed = false then ((1, 0), Except.ok filter_result)
      else
        match o.gateClassifier t.raw_content (t.company_name.getD "") (t.sector.getD "") with
        | Except.error e => ((1, 1), Except.error e)
        | Except.ok classification => ((1, 1), Except.ok classification)

/-- The `report_repo` chosen by `_persist_delivery_failure`: the
deliverer's attribute when set, else the generator's (Python `or`). -/
def reportRepoOf (o : Orchestrator) : Option ReportRepo :=
  match o.delivererReportRepo with
  | some repo => some repo
  | none => o.generatorReportRepo

/-- The report as mutated by `_persist_delivery_failure` before saving. -/
def deliveryFailedReport (report : Report) : Report :=
  { report with
    delivery_status := ReportDeliveryStatus.delivery_failed
    delivered_via := [] }

/-- `_persist_delivery_failure`: mark the report delivery-failed, then save
it through the reachable report repository if any; a failing save is
swallowed (logged only).  Returns the mutated report and the list of
reports actually persisted. -/
def persistDeliveryFailure (o : Orchestrator) (report : Report) :
    Report × List Report :=
  let report' := deliveryFailedReport report
  match reportRepoOf o with
  | none => (report', [])
  | some report_repo =>
    match report_repo.save report' with
    | Except.ok _ => (report', [report'])
    | Except.error _ => (report', [])

/-- Call-count records used at the exit points of the post-gate pipeline. -/
def postCalls (analyze assess generate deliver : Nat) : StageCalls :=
  ⟨0, 0, analyze, assess, generate, deliver⟩

/-- `_run_post_gate_pipeline`: Layers 3-5.  Skips everything when the
analyzer is unconfigured; stops after `analyzed` when the result is not
significant or when any of the assessor, generator or deliverer is
unconfigured; wraps stage exceptions in stage-specific `RuntimeError`
messages which propagate to the caller; converts a delivery failure into a
`reported` status after persisting the delivery-failed marker. -/
def runPostGatePipeline (o : Orchestrator) (t : TriggerEvent) :
    RunTrace × Except String Unit :=
  match o.deepAnalyzer with
  | none => (⟨[], postCalls 0 0 0 0, []⟩, Except.ok ())
  | some analyze =>
    let s1 : List (TriggerStatus × String) :=
      [(TriggerStatus.analyzing, "Starting deep analysis")]
    match analyze t with
    | Except.error e =>
      (⟨s1, postCalls 1 0 0 0, []⟩, Except.error ("Layer 3 analysis failed: " ++ e))
    | Except.ok investigation =>
      let s2 := s1 ++
        [(TriggerStatus.analyzed,
          "Analysis complete. Significance: " ++ investigation.significance)]
      if investigation.is_significant = false then
        (⟨s2, postCalls 1 0 0 0, []⟩, Except.ok ())
      else
        match o.decisionAssessor, o.reportGenerator, o.reportDeliverer with
        | some assess, some generate, some deliver =>
          let s3 := s2 ++ [(TriggerStatus.assessing, "Starting decision assessment")]
          match assess investigation with
          | Except.error e =>
            (⟨s3, postCalls 1 1 0 0, []⟩,
             Except.error ("Layer 4 assessment failed: " ++ e))
          | Except.ok assessment =>
            let s4 := s3 ++
              [(TriggerStatus.assessed,
                "Assessment complete. Recommendation: " ++ assessment.new_recommendation)]
            match generate investigation assessment with
            | Except.error e =>
              (⟨s4, postCalls 1 1 1 0, []⟩,
               Except.error ("Layer 5 report generation failed: " ++ e))
            | Except.ok report =>
              match deliver report with
              | Except.error e =>
                let persisted := persistDeliveryFailure o report
                (⟨s4 ++
                    [(TriggerStatus.reported,
                      "Report generated but delivery failed: " ++ e)],
                  postCalls 1 1 1 1, persisted.2⟩, Except.ok ())
              | Except.ok channels =>
                let reason :=
                  if channels.isEmpty then "Report generated"
                  else "Report generated and delivered via " ++
                    String.intercalate ", " channels
                (⟨s4 ++ [(TriggerStatus.reported, reason)],
                  postCalls 1 1 1 1, []⟩, Except.ok ())
        | _, _, _ => (⟨s2, postCalls 1 0 0 0, []⟩, Except.ok ())

/-- Gate outcome dict built by the top-level exception handler of
`process_trigger`. -/
def pipelineErrorResult (e : String) : GateResult :=
  ⟨false, "Pipeline error: " ++ e, "pipeline_error", "n/a"⟩

/-- Merge the gate call counts into a post-gate trace's call record. -/
def withGateCalls (gateCalls : Nat × Nat) (c : StageCalls) : StageCalls :=
  ⟨gateCalls.1, gateCalls.2, c.analyzeCalls, c.assessCalls, c.generateCalls, c.deliverCalls⟩

/-- The trigger as it continues past `_process_documents`: `document_ids`
and `raw_content` are the only fields that step can change. -/
def afterDocs (t : TriggerEvent) (docResult : List String × String) : TriggerEvent :=
  { t with document_ids := docResult.1, raw_content := docResult.2 }

/-- `process_trigger`: document ingestion, gate decision, `gate_passed` or
`filtered_out` transition, then the post-gate pipeline; every exception is
caught at the top level and converted into a terminal `error` transition
with the message embedded, returning the `pipeline_error` gate dict. -/
def processTrigger (o : Orchestrator) (t : TriggerEvent) : RunTrace × GateResult :=
  match o.documentStep t with
  | Except.error e =>
    (⟨[(TriggerStatus.error, "Pipeline error: " ++ e)], withGateCalls (0, 0) (postCalls 0 0 0 0), []⟩,
     pipelineErrorResult e)
  | Except.ok docResult =>
    let t1 := afterDocs t docResult
    let gate := runGate o t1
    match gate.2 with
    | Except.error e =>
      (⟨[(TriggerStatus.error, "Pipeline error: " ++ e)],
        withGateCalls gate.1 (postCalls 0 0 0 0), []⟩, pipelineErrorResult e)
    | Except.ok gateResult =>
      if gateResult.passed then
        let post := runPostGatePipeline o t1
        match post.2 with
        | Except.ok _ =>
          (⟨(TriggerStatus.gate_passed, gateResult.reason) :: post.1.statuses,
            withGateCalls gate.1 post.1.calls, post.1.savedReports⟩, gateResult)
        | Except.error e =>
          (⟨(TriggerStatus.gate_passed, gateResult.reason) :: post.1.statuses ++
              [(TriggerStatus.error, "Pipeline error: " ++ e)],
            withGateCalls gate.1 post.1.calls, post.1.savedReports⟩,
           pipelineErrorResult e)
      else
        (⟨[(TriggerStatus.filtered_out, gateResult.reason)],
          withGateCalls gate.1 (postCalls 0 0 0 0), []⟩, gateResult)

/-- Last status transition recorded during a run. -/
def lastRecorded (r : RunTrace × GateResult) : Option (TriggerStatus × String) :=
  r.1.statuses.getLast?

/-! ### Concrete sample inputs used by closed instances -/

/-- A human-submitted trigger as `create_human_trigger` persists it. -/
def humanTrigger : TriggerEvent :=
  { trigger_id := "t-human"
    source := TriggerSource.human
    source_url := none
    source_feed_title := none
    source_feed_published := none
    company_symbol := some "ABB"
    company_name := some "ABB India"
    sector := none
    raw_content := "press release"
    document_ids := []
    priority := TriggerPriority.high
    triggered_by := some "analyst"
    human_notes := none
    status := TriggerStatus.gate_passed
    status_history := [⟨TriggerStatus.gate_passed, 0, "Human trigger bypasses Layer 2 gate"⟩]
    gate_result := none
    created_at := 0
    updated_at := 0 }

/-- A fully configured orchestrator whose collaborators all succeed. -/
def baseOrchestrator : Orchestrator :=
  { documentStep := fun t => Except.ok (t.document_ids, t.raw_content)
    watchlistFilter := fun _ => Except.ok ⟨true, "watchlist match", "watchlist", "n/a"⟩
    gateClassifier := fun _ _ _ => Except.ok ⟨true, "material event", "classifier", "llm-1"⟩
    deepAnalyzer := some (fun _ => Except.ok ⟨"high", true⟩)
    decisionAssessor := some (fun _ => Except.ok ⟨"buy"⟩)
    reportGenerator := some (fun _ _ => Except.ok ⟨"r1", ReportDeliveryStatus.generated, []⟩)
    reportDeliverer := some (fun _ => Except.ok ["email"])
    delivererReportRepo := none
    generatorReportRepo := none }

/-- The base orchestrator with the report generator unconfigured while the
decision assessor stays configured. -/
def missingGeneratorOrchestrator : Orchestrator :=
  { baseOrchestrator with reportGenerator := none }

/-- The base orchestrator with a deliverer that raises. -/
def deliverFailingOrchestrator : Orchestrator :=
  { baseOrchestrator with reportDeliverer := some (fun _ => Except.error "boom") }

/-- The base orchestrator with a deliverer that raises and a reachable
report repository whose save also raises. -/
def saveFailingOrchestrator : Orchestrator :=
  { baseOrchestrator with
    reportDeliverer := some (fun _ => Except.error "boom")
    delivererReportRepo := some ⟨fun _ => Except.error "db down"⟩ }

/-- A persisted trigger whose `source_url` equals the sample announcement's
document URL (not its announcement URL). -/
def storedDocUrlTrigger : TriggerEvent :=
  { humanTrigger with
    trigger_id := "t-stored"
    source := TriggerSource.nse_rss
    source_url := some "http://x.example/doc.pdf"
    status := TriggerStatus.pending
    status_history := [] }

/-- An announcement whose canonical source URL is new but whose attached
document URL matches `storedDocUrlTrigger`. -/
def docUrlAnnouncement : NormalizedAnnouncement :=
  { source := TriggerSource.nse_rss
    source_url := "http://x.example/ann"
    title := "t"
    raw_content := "c"
    company_symbol := none
    company_name := none
    sector := none
    published_at := none
    document_urls := ["http://x.example/doc.pdf"] }

/-- Poller state without recent-listing support and nothing remembered. -/
def freshFallbackState : PollerState := ⟨∅, false⟩

/-- Sample human trigger request payload. -/
def samplePayload : HumanTriggerRequest :=
  ⟨none, some "ABB", some "ABB India", "check this announcement", some "analyst", none⟩

/-- The base orchestrator with an analyzer that reports a non-significant
result. -/
def nonSignificantOrchestrator : Orchestrator :=
  { baseOrchestrator with deepAnalyzer := some (fun _ => Except.ok ⟨"low", false⟩) }

/-- Gate outcome of the human bypass path. -/
def humanBypassResult : GateResult :=
  ⟨true, "Human trigger bypasses Layer 2 gate", "human_bypass", "n/a"⟩

/-- The base orchestrator with an analyzer that raises. -/
def analyzerFailingOrchestrator : Orchestrator :=
  { baseOrchestrator with deepAnalyzer := some (fun _ => Except.error "llm timeout") }

/-- The base orchestrator with a deliverer that raises and a reachable
report repository whose save succeeds. -/
def savingDeliveryFailOrchestrator : Orchestrator :=
  { baseOrchestrator with
    reportDeliverer := some (fun _ => Except.error "boom")
    delivererReportRepo := some ⟨fun _ => Except.ok ()⟩ }

/-! ### Helper lemmas -/

/-- A list is a prefix of itself under the boolean prefix check. -/
lemma isPrefixOf_self (l : List Char) : l.isPrefixOf l = true := by
  induction l with
  | nil => rfl
  | cons c t ih => simp [List.isPrefixOf, ih]

/-- Occurrence search succeeds on a suffix occurrence. -/
lemma listOccurs_suffix (n : List Char) : ∀ p : List Char, listOccurs n (p ++ n) = true := by
  intro p
  induction p with
  | nil =>
    cases n with
    | nil => rfl
    | cons c rest => simp [listOccurs, isPrefixOf_self]
  | cons c p ih => simp [listOccurs, ih]

/-- A string contains itself appended after any prefix. -/
lemma strContains_suffix (m p : String) : strContains m (p ++ m) = true := by
  simp [strContains, String.data_append, listOccurs_suffix]

/-- Containment through a nested prefix, matching the shape
`"Pipeline error: " ++ ("Layer N ... failed: " ++ m)`. -/
lemma strContains_nested (m a b : String) : strContains m (a ++ (b ++ m)) = true := by
  rw [← String.append_assoc]
  exact strContains_suffix m (a ++ b)

/-- Characterization of the store existence check for nonempty keys. -/
lemma existsByUrl_iff (store : List TriggerEvent) (k : String) (hne : k ≠ "") :
    existsByUrl store k = true ↔ ∃ tr ∈ store, tr.source_url = some k := by
  simp [existsByUrl, hne, List.any_eq_true]

/-- Unfolding of `record_failure` on counter, threshold and recovery. -/
lemma record_failure_fields (b : CircuitBreaker) (now : ℚ) :
    (b.record_failure now).consecutive_failures = b.consecutive_failures + 1
    ∧ (b.record_failure now).failure_threshold = b.failure_threshold
    ∧ (b.record_failure now).recovery_seconds = b.recovery_seconds := by
  simp only [CircuitBreaker.record_failure]
  split <;> simp

/-- When a run of consecutive failures exactly reaches the threshold, the
last failure opens the breaker until its own time plus the recovery
window. -/
lemma recordFailures_reaches_threshold :
    ∀ (times : List ℚ) (b : CircuitBreaker) (tl : ℚ),
      b.consecutive_failures + times.length = b.failure_threshold →
      times.getLast? = some tl →
      (recordFailures b times).opened_until = some (tl + b.recovery_seconds) := by
  intro times
  induction times with
  | nil => intro b tl _ hlast; simp at hlast
  | cons x xs ih =>
    intro b tl hlen hlast
    cases xs with
    | nil =>
      simp at hlast
      subst hlast
      have hthr : b.failure_threshold ≤ b.consecutive_failures + 1 := by
        simp at hlen; omega
      simp [recordFailures, CircuitBreaker.record_failure, hthr]
    | cons y ys =>
      have hstep : recordFailures b (x :: y :: ys)
          = recordFailures (b.record_failure x) (y :: ys) := rfl
      rw [hstep]
      have hf := record_failure_fields b x
      have hrec := ih (b.record_failure x) tl
        (by rw [hf.1, hf.2.1]; simp at hlen ⊢; omega)
        (by simpa using hlast)
      rw [hrec, hf.2.2]

/-! ### Claims C7-C10 -/

/-- Claim C7: after any nonempty sequence of transitions performed through
the single status-transition operation, the last history entry's status
equals the trigger's current status, and the history is the original
history extended by exactly one appended entry per transition (earlier
entries untouched). -/
theorem status_history_append_only (t : TriggerEvent)
    (l : List (TriggerStatus × String × Nat)) (h : l ≠ []) :
    ((applyTransitions t l).status_history.getLast?).map StatusTransition.status
        = some (applyTransitions t l).status
    ∧ ∃ tail, (applyTransitions t l).status_history = t.status_history ++ tail
        ∧ tail.length = l.length := by
  induction l generalizing t with
  | nil => exact absurd rfl h
  | cons x xs ih =>
    cases xs with
    | nil =>
      refine ⟨?_, ⟨[⟨x.1, x.2.2, x.2.1⟩], ?_, by simp⟩⟩
      · simp [applyTransitions, TriggerEvent.set_status, List.getLast?_concat]
      · simp [applyTransitions, TriggerEvent.set_status]
    | cons y ys =>
      have step : applyTransitions t (x :: y :: ys)
          = applyTransitions (t.set_status x.1 x.2.1 x.2.2) (y :: ys) := rfl
      obtain ⟨h1, tail, h2, h3⟩ := ih (t.set_status x.1 x.2.1 x.2.2) (by simp)
      refine ⟨by rw [step]; exact h1, ⟨⟨x.1, x.2.2, x.2.1⟩ :: tail, ?_, by simp [h3]⟩⟩
      rw [step, h2]
      simp [TriggerEvent.set_status]

/-- Closed instance of C7 at a concrete trigger and transition list. -/
theorem status_history_append_only_witness :
    ([(TriggerStatus.analyzing, "Starting deep analysis", 3)]
        : List (TriggerStatus × String × Nat)) ≠ []
    ∧ (((applyTransitions humanTrigger
          [(TriggerStatus.analyzing, "Starting deep analysis", 3)]).status_history.getLast?).map
            StatusTransition.status
        = some (applyTransitions humanTrigger
            [(TriggerStatus.analyzing, "Starting deep analysis", 3)]).status
      ∧ ∃ tail, (applyTransitions humanTrigger
            [(TriggerStatus.analyzing, "Starting deep analysis", 3)]).status_history
          = humanTrigger.status_history ++ tail
        ∧ tail.length
          = ([(TriggerStatus.analyzing, "Starting deep analysis", 3)]
              : List (TriggerStatus × String × Nat)).length) :=
  ⟨by decide,
   status_history_append_only humanTrigger
     [(TriggerStatus.analyzing, "Starting deep analysis", 3)] (by decide)⟩

/-- Claim C8: with attempts = 3, an operation failing transiently on its
first two calls and succeeding on the third returns the success value
after exactly 3 calls, and an operation whose first failure is
non-transient is called exactly once with the error re-raised; in both the
synchronous and the asynchronous form. -/
theorem retry_transient_and_permanent {α : Type} (op opBad : Nat → Except String α)
    (shouldRetry : String → Bool) (e1 e2 eBad : String) (v : α)
    (h1 : op 1 = Except.error e1) (h2 : op 2 = Except.error e2)
    (h3 : op 3 = Except.ok v)
    (ht1 : shouldRetry e1 = true) (ht2 : shouldRetry e2 = true)
    (hb : opBad 1 = Except.error eBad) (htb : shouldRetry eBad = false) :
    retry_sync op 3 shouldRetry = (Except.ok v, 3)
    ∧ retry_async op 3 shouldRetry = (Except.ok v, 3)
    ∧ retry_sync opBad 3 shouldRetry = (Except.error eBad, 1)
    ∧ retry_async opBad 3 shouldRetry = (Except.error eBad, 1) := by
  have hr : List.range' 1 3 = [1, 2, 3] := rfl
  refine ⟨?_, ?_, ?_, ?_⟩ <;>
    simp [retry_sync, retry_async, hr, retrySyncLoop, retryAsyncLoop,
      h1, h2, h3, ht1, ht2, hb, htb]

/-- Closed instance of C8 at concrete operations. -/
theorem retry_transient_and_permanent_witness :
    ((fun n => if n < 3 then Except.error "timeout" else Except.ok 7 : Nat → Except String Nat) 1
        = Except.error "timeout")
    ∧ ((fun n => if n < 3 then Except.error "timeout" else Except.ok 7 : Nat → Except String Nat) 3
        = Except.ok 7)
    ∧ (retry_sync (fun n => if n < 3 then Except.error "timeout" else Except.ok 7) 3
          (fun e => e = "timeout") = (Except.ok 7, 3)
      ∧ retry_async (fun n => if n < 3 then Except.error "timeout" else Except.ok 7) 3
          (fun e => e = "timeout") = (Except.ok 7, 3)
      ∧ retry_sync (fun _ => (Except.error "bad input" : Except String Nat)) 3
          (fun e => e = "timeout") = (Except.error "bad input", 1)
      ∧ retry_async (fun _ => (Except.error "bad input" : Except String Nat)) 3
          (fun e => e = "timeout") = (Except.error "bad input", 1)) :=
  ⟨rfl, rfl,
   retry_transient_and_permanent
     (fun n => if n < 3 then Except.error "timeout" else Except.ok 7)
     (fun _ => Except.error "bad input")
     (fun e => decide (e = "timeout")) "timeout" "timeout" "bad input" 7
     rfl rfl rfl (by decide) (by decide) rfl (by decide)⟩

/-- Claim C9: after `failure_threshold` consecutive `record_failure` calls
on a fresh breaker, `is_open` returns true (while the recovery window has
not elapsed since the opening failure), and once `recovery_seconds` have
elapsed on the breaker's clock since it opened, `is_open` returns false
without any `record_success` call. -/
theorem circuit_breaker_opens_and_recovers (b : CircuitBreaker) (times : List ℚ)
    (tl now now' : ℚ)
    (hfresh : b.consecutive_failures = 0)
    (hlen : times.length = b.failure_threshold)
    (hlast : times.getLast? = some tl)
    (hnow : now < tl + b.recovery_seconds)
    (hnow' : tl + b.recovery_seconds ≤ now') :
    ((recordFailures b times).is_open now).1 = true
    ∧ ((recordFailures b times).is_open now').1 = false := by
  have hopen := recordFailures_reaches_threshold times b tl (by simp [hfresh, hlen]) hlast
  constructor
  · simp [CircuitBreaker.is_open, hopen, if_neg (not_le.mpr hnow)]
  · simp [CircuitBreaker.is_open, hopen, if_pos hnow']

/-- Closed instance of C9 at a concrete breaker and simulated clock. -/
theorem circuit_breaker_opens_and_recovers_witness :
    (⟨2, 10, 0, none⟩ : CircuitBreaker).consecutive_failures = 0
    ∧ ([(1 : ℚ), 4].length = (⟨2, 10, 0, none⟩ : CircuitBreaker).failure_threshold)
    ∧ ([(1 : ℚ), 4].getLast? = some 4)
    ∧ ((5 : ℚ) < 4 + (⟨2, 10, 0, none⟩ : CircuitBreaker).recovery_seconds)
    ∧ ((4 : ℚ) + (⟨2, 10, 0, none⟩ : CircuitBreaker).recovery_seconds ≤ 14)
    ∧ ((recordFailures ⟨2, 10, 0, none⟩ [(1 : ℚ), 4]).is_open 5).1 = true
    ∧ ((recordFailures ⟨2, 10, 0, none⟩ [(1 : ℚ), 4]).is_open 14).1 = false := by
  refine ⟨rfl, by decide, by decide, by norm_num, by norm_num, ?_⟩
  exact circuit_breaker_opens_and_recovers ⟨2, 10, 0, none⟩ [(1 : ℚ), 4] 4 5 14
    rfl (by decide) (by decide) (by norm_num) (by norm_num)

/-- Claim C10: calling `is_open` at or after the stored open-until time
returns false and resets both `opened_until` and the consecutive-failure
counter; consequently a single `record_failure` immediately after that
observation does not re-open the breaker when the threshold exceeds 1. -/
theorem is_open_expiry_resets_counter (b : CircuitBreaker) (T now t' now' : ℚ)
    (hopen : b.opened_until = some T)
    (hT : T ≤ now)
    (hthr : 1 < b.failure_threshold) :
    (b.is_open now).1 = false
    ∧ ((b.is_open now).2).consecutive_failures = 0
    ∧ ((b.is_open now).2).opened_until = none
    ∧ ((((b.is_open now).2).record_failure t').is_open now').1 = false := by
  have h2 : b.is_open now
      = (false, { b with opened_until := none, consecutive_failures := 0 }) := by
    simp [CircuitBreaker.is_open, hopen, if_pos hT]
  have hc : ¬ b.failure_threshold ≤ 0 + 1 := by omega
  refine ⟨by rw [h2], by rw [h2], by rw [h2], ?_⟩
  rw [h2]
  simp [CircuitBreaker.record_failure, CircuitBreaker.is_open, hc]

/-- Closed instance of C10 at a concrete opened breaker. -/
theorem is_open_expiry_resets_counter_witness :
    (⟨2, 10, 5, some 20⟩ : CircuitBreaker).opened_until = some 20
    ∧ ((20 : ℚ) ≤ 25)
    ∧ (1 < (⟨2, 10, 5, some 20⟩ : CircuitBreaker).failure_threshold)
    ∧ (((⟨2, 10, 5, some 20⟩ : CircuitBreaker).is_open 25).1 = false
      ∧ ((((⟨2, 10, 5, some 20⟩ : CircuitBreaker).is_open 25).2).consecutive_failures = 0)
      ∧ ((((⟨2, 10, 5, some 20⟩ : CircuitBreaker).is_open 25).2).opened_until = none)
      ∧ (((((⟨2, 10, 5, some 20⟩ : CircuitBreaker).is_open 25).2).record_failure 26).is_open 27).1
          = false) :=
  ⟨rfl, by norm_num, by decide,
   is_open_expiry_resets_counter ⟨2, 10, 5, some 20⟩ 20 25 26 27 rfl (by norm_num) (by decide)⟩

/-! ### Claim C5 -/

/-- Claim C5: for a gate-passed trigger whose analysis result is not
significant, the run's final recorded status is `analyzed` and the
assessor, generator and deliverer are never invoked. -/
theorem non_significant_stops_pipeline (o : Orchestrator) (t : TriggerEvent)
    (doc : List String × String) (gr : GateResult)
    (analyze : TriggerEvent → Except String Investigation) (inv : Investigation)
    (hdoc : o.documentStep t = Except.ok doc)
    (hgate : (runGate o (afterDocs t doc)).2 = Except.ok gr)
    (hpass : gr.passed = true)
    (han : o.deepAnalyzer = some analyze)
    (hinv : analyze (afterDocs t doc) = Except.ok inv)
    (hsig : inv.is_significant = false) :
    (lastRecorded (processTrigger o t)).map Prod.fst = some TriggerStatus.analyzed
    ∧ (processTrigger o t).1.calls.assessCalls = 0
    ∧ (processTrigger o t).1.calls.generateCalls = 0
    ∧ (processTrigger o t).1.calls.deliverCalls = 0 := by
  have hpost : runPostGatePipeline o (afterDocs t doc)
      = (⟨[(TriggerStatus.analyzing, "Starting deep analysis"),
           (TriggerStatus.analyzed, "Analysis complete. Significance: " ++ inv.significance)],
          postCalls 1 0 0 0, []⟩, Except.ok ()) := by
    simp [runPostGatePipeline, han, hinv, hsig]
  have hproc : processTrigger o t
      = (⟨[(TriggerStatus.gate_passed, gr.reason),
           (TriggerStatus.analyzing, "Starting deep analysis"),
           (TriggerStatus.analyzed, "Analysis complete. Significance: " ++ inv.significance)],
          withGateCalls (runGate o (afterDocs t doc)).1 (postCalls 1 0 0 0), []⟩, gr) := by
    simp [processTrigger, hdoc, hgate, hpass, hpost]
  rw [hproc]
  simp [lastRecorded, withGateCalls, postCalls]

/-- Closed instance of C5: a human trigger on an orchestrator whose
analyzer reports a non-significant result. -/
theorem non_significant_stops_pipeline_witness :
    nonSignificantOrchestrator.documentStep humanTrigger = Except.ok ([], "press release")
    ∧ (runGate nonSignificantOrchestrator (afterDocs humanTrigger ([], "press release"))).2
        = Except.ok humanBypassResult
    ∧ humanBypassResult.passed = true
    ∧ nonSignificantOrchestrator.deepAnalyzer = some (fun _ => Except.ok ⟨"low", false⟩)
    ∧ (fun (_ : TriggerEvent) =>
          (Except.ok ⟨"low", false⟩ : Except String Investigation))
        (afterDocs humanTrigger ([], "press release")) = Except.ok ⟨"low", false⟩
    ∧ (⟨"low", false⟩ : Investigation).is_significant = false
    ∧ ((lastRecorded (processTrigger nonSignificantOrchestrator humanTrigger)).map Prod.fst
        = some TriggerStatus.analyzed
      ∧ (processTrigger nonSignificantOrchestrator humanTrigger).1.calls.assessCalls = 0
      ∧ (processTrigger nonSignificantOrchestrator humanTrigger).1.calls.generateCalls = 0
      ∧ (processTrigger nonSignificantOrchestrator humanTrigger).1.calls.deliverCalls = 0) :=
  ⟨rfl, rfl, rfl, rfl, rfl, rfl,
   non_significant_stops_pipeline nonSignificantOrchestrator humanTrigger
     ([], "press release") humanBypassResult
     (fun _ => Except.ok ⟨"low", false⟩) ⟨"low", false⟩ rfl rfl rfl rfl rfl rfl⟩

/-! ### Claim C1 -/

/-- Claim C1 counterexample: on a gate-passed trigger with a significant
analysis, a configured decision assessor, and an unconfigured report
generator, the decision stage does not run (no assess call, no `assessing`
transition) even though its collaborator is configured; the run stops at
`analyzed`, refuting that every stage whose collaborator is configured
still runs before the first absent one. -/
theorem orchestrator_skips_configured_decision_stage_cex :
    missingGeneratorOrchestrator.decisionAssessor.isSome = true
    ∧ (processTrigger missingGeneratorOrchestrator humanTrigger).1.calls.assessCalls = 0
    ∧ (processTrigger missingGeneratorOrchestrator humanTrigger).1.statuses.all
        (fun s => decide (s.1 ≠ TriggerStatus.assessing)) = true
    ∧ (lastRecorded (processTrigger missingGeneratorOrchestrator humanTrigger)).map Prod.fst
        = some TriggerStatus.analyzed := by decide

/-- Claim C1 (amended): for a gate-passed trigger, if the analyzer is
unconfigured no post-gate stage runs and the run ends at `gate_passed`;
if the analyzer is configured and reports a significant result while any
of the assessor, generator, or deliverer is unconfigured, the decision,
report, and delivery stages are all skipped and the run ends at
`analyzed`; in neither case does the trigger end in `error`. -/
theorem post_gate_stage_skip_amended (o : Orchestrator) (t : TriggerEvent)
    (doc : List String × String) (gr : GateResult)
    (hdoc : o.documentStep t = Except.ok doc)
    (hgate : (runGate o (afterDocs t doc)).2 = Except.ok gr)
    (hpass : gr.passed = true) :
    (o.deepAnalyzer = none →
      (processTrigger o t).1.statuses = [(TriggerStatus.gate_passed, gr.reason)]
      ∧ (lastRecorded (processTrigger o t)).map Prod.fst = some TriggerStatus.gate_passed)
    ∧ (∀ analyze inv, o.deepAnalyzer = some analyze →
        analyze (afterDocs t doc) = Except.ok inv →
        inv.is_significant = true →
        (o.decisionAssessor = none ∨ o.reportGenerator = none ∨ o.reportDeliverer = none) →
        (processTrigger o t).1.statuses =
          [(TriggerStatus.gate_passed, gr.reason),
           (TriggerStatus.analyzing, "Starting deep analysis"),
           (TriggerStatus.analyzed, "Analysis complete. Significance: " ++ inv.significance)]
        ∧ (processTrigger o t).1.calls.assessCalls = 0
        ∧ (processTrigger o t).1.calls.generateCalls = 0
        ∧ (processTrigger o t).1.calls.deliverCalls = 0
        ∧ (lastRecorded (processTrigger o t)).map Prod.fst = some TriggerStatus.analyzed) := by
  constructor
  · intro hnone
    have hpost : runPostGatePipeline o (afterDocs t doc)
        = (⟨[], postCalls 0 0 0 0, []⟩, Except.ok ()) := by
      simp [runPostGatePipeline, hnone]
    have hproc : processTrigger o t
        = (⟨[(TriggerStatus.gate_passed, gr.reason)],
            withGateCalls (runGate o (afterDocs t doc)).1 (postCalls 0 0 0 0), []⟩, gr) := by
      simp [processTrigger, hdoc, hgate, hpass, hpost]
    rw [hproc]
    simp [lastRecorded]
  · intro analyze inv han hinv hsig hmiss
    have hpost : runPostGatePipeline o (afterDocs t doc)
        = (⟨[(TriggerStatus.analyzing, "Starting deep analysis"),
             (TriggerStatus.analyzed, "Analysis complete. Significance: " ++ inv.significance)],
            postCalls 1 0 0 0, []⟩, Except.ok ()) := by
      rcases hmiss with h | h | h
      · simp [runPostGatePipeline, han, hinv, hsig, h]
      · cases hda : o.decisionAssessor with
        | none => simp [runPostGatePipeline, han, hinv, hsig, hda]
        | some assess => simp [runPostGatePipeline, han, hinv, hsig, hda, h]
      · cases hda : o.decisionAssessor with
        | none => simp [runPostGatePipeline, han, hinv, hsig, hda]
        | some assess =>
          cases hrg : o.reportGenerator with
          | none => simp [runPostGatePipeline, han, hinv, hsig, hda, hrg]
          | some generate => simp [runPostGatePipeline, han, hinv, hsig, hda, hrg, h]
    have hproc : processTrigger o t
        = (⟨[(TriggerStatus.gate_passed, gr.reason),
             (TriggerStatus.analyzing, "Starting deep analysis"),
             (TriggerStatus.analyzed, "Analysis complete. Significance: " ++ inv.significance)],
            withGateCalls (runGate o (afterDocs t doc)).1 (postCalls 1 0 0 0), []⟩, gr) := by
      simp [processTrigger, hdoc, hgate, hpass, hpost]
    rw [hproc]
    simp [lastRecorded, withGateCalls, postCalls]

/-- Closed instance of the amended C1 at the counterexample
configuration. -/
theorem post_gate_stage_skip_amended_witness :
    missingGeneratorOrchestrator.documentStep humanTrigger = Except.ok ([], "press release")
    ∧ (runGate missingGeneratorOrchestrator (afterDocs humanTrigger ([], "press release"))).2
        = Except.ok humanBypassResult
    ∧ humanBypassResult.passed = true
    ∧ missingGeneratorOrchestrator.reportGenerator = none
    ∧ ((processTrigger missingGeneratorOrchestrator humanTrigger).1.statuses =
        [(TriggerStatus.gate_passed, humanBypassResult.reason),
         (TriggerStatus.analyzing, "Starting deep analysis"),
         (TriggerStatus.analyzed,
          "Analysis complete. Significance: " ++ (⟨"high", true⟩ : Investigation).significance)]
      ∧ (processTrigger missingGeneratorOrchestrator humanTrigger).1.calls.assessCalls = 0
      ∧ (processTrigger missingGeneratorOrchestrator humanTrigger).1.calls.generateCalls = 0
      ∧ (processTrigger missingGeneratorOrchestrator humanTrigger).1.calls.deliverCalls = 0
      ∧ (lastRecorded (processTrigger missingGeneratorOrchestrator humanTrigger)).map Prod.fst
          = some TriggerStatus.analyzed) :=
  ⟨rfl, rfl, rfl, rfl,
   (post_gate_stage_skip_amended missingGeneratorOrchestrator humanTrigger
      ([], "press release") humanBypassResult rfl rfl rfl).2
     (fun _ => Except.ok ⟨"high", true⟩) ⟨"high", true⟩ rfl rfl rfl (Or.inr (Or.inl rfl))⟩

/-! ### Claim C3 -/

/-- Claim C3 counterexample: the report deliverer is a stage collaborator,
yet when it raises, the trigger's final recorded status is `reported`, not
`error` — refuting the claim for the delivery stage. -/
theorem deliverer_exception_not_error_cex :
    (lastRecorded (processTrigger deliverFailingOrchestrator humanTrigger)).map Prod.fst
        = some TriggerStatus.reported
    ∧ (processTrigger deliverFailingOrchestrator humanTrigger).1.statuses.all
        (fun s => decide (s.1 ≠ TriggerStatus.error)) = true := by decide

/-- Claim C3 (amended): if the analysis, decision, or report-generation
collaborator raises during `process_trigger`, the exception does not
propagate: the run returns the `pipeline_error` gate dict, the final
recorded status is `error`, and its reason contains the original
exception's message.  (A deliverer exception instead ends in `reported`,
per C4.) -/
theorem stage_exception_terminal_error_amended (o : Orchestrator) (t : TriggerEvent)
    (doc : List String × String) (gr : GateResult) (m : String)
    (hdoc : o.documentStep t = Except.ok doc)
    (hgate : (runGate o (afterDocs t doc)).2 = Except.ok gr)
    (hpass : gr.passed = true)
    (hraise :
      (∃ analyze, o.deepAnalyzer = some analyze
        ∧ analyze (afterDocs t doc) = Except.error m)
      ∨ (∃ analyze inv assess generate deliver,
          o.deepAnalyzer = some analyze
          ∧ analyze (afterDocs t doc) = Except.ok inv
          ∧ inv.is_significant = true
          ∧ o.decisionAssessor = some assess
          ∧ o.reportGenerator = some generate
          ∧ o.reportDeliverer = some deliver
          ∧ assess inv = Except.error m)
      ∨ (∃ analyze inv assess assessment generate deliver,
          o.deepAnalyzer = some analyze
          ∧ analyze (afterDocs t doc) = Except.ok inv
          ∧ inv.is_significant = true
          ∧ o.decisionAssessor = some assess
          ∧ o.reportGenerator = some generate
          ∧ o.reportDeliverer = some deliver
          ∧ assess inv = Except.ok assessment
          ∧ generate inv assessment = Except.error m)) :
    ∃ r, lastRecorded (processTrigger o t) = some (TriggerStatus.error, r)
      ∧ strContains m r = true
      ∧ (processTrigger o t).2.method = "pipeline_error" := by
  rcases hraise with
      ⟨analyze, han, herr⟩
    | ⟨analyze, inv, assess, generate, deliver, han, hinv, hsig, hda, hrg, hrd, herr⟩
    | ⟨analyze, inv, assess, assessment, generate, deliver, han, hinv, hsig, hda, hrg, hrd, hok,
        herr⟩
  · have hpost : runPostGatePipeline o (afterDocs t doc)
        = (⟨[(TriggerStatus.analyzing, "Starting deep analysis")], postCalls 1 0 0 0, []⟩,
           Except.error ("Layer 3 analysis failed: " ++ m)) := by
      simp [runPostGatePipeline, han, herr]
    refine ⟨"Pipeline error: " ++ ("Layer 3 analysis failed: " ++ m), ?_,
      strContains_nested m _ _, ?_⟩
    · simp [processTrigger, hdoc, hgate, hpass, hpost, lastRecorded]
    · simp [processTrigger, hdoc, hgate, hpass, hpost, pipelineErrorResult]
  · have hpost : runPostGatePipeline o (afterDocs t doc)
        = (⟨[(TriggerStatus.analyzing, "Starting deep analysis"),
             (TriggerStatus.analyzed, "Analysis complete. Significance: " ++ inv.significance),
             (TriggerStatus.assessing, "Starting decision assessment")],
            postCalls 1 1 0 0, []⟩,
           Except.error ("Layer 4 assessment failed: " ++ m)) := by
      simp [runPostGatePipeline, han, hinv, hsig, hda, hrg, hrd, herr]
    refine ⟨"Pipeline error: " ++ ("Layer 4 assessment failed: " ++ m), ?_,
      strContains_nested m _ _, ?_⟩
    · simp [processTrigger, hdoc, hgate, hpass, hpost, lastRecorded]
    · simp [processTrigger, hdoc, hgate, hpass, hpost, pipelineErrorResult]
  · have hpost : runPostGatePipeline o (afterDocs t doc)
        = (⟨[(TriggerStatus.analyzing, "Starting deep analysis"),
             (TriggerStatus.analyzed, "Analysis complete. Significance: " ++ inv.significance),
             (TriggerStatus.assessing, "Starting decision assessment"),
             (TriggerStatus.assessed,
              "Assessment complete. Recommendation: " ++ assessment.new_recommendation)],
            postCalls 1 1 1 0, []⟩,
           Except.error ("Layer 5 report generation failed: " ++ m)) := by
      simp [runPostGatePipeline, han, hinv, hsig, hda, hrg, hrd, hok, herr]
    refine ⟨"Pipeline error: " ++ ("Layer 5 report generation failed: " ++ m), ?_,
      strContains_nested m _ _, ?_⟩
    · simp [processTrigger, hdoc, hgate, hpass, hpost, lastRecorded]
    · simp [processTrigger, hdoc, hgate, hpass, hpost, pipelineErrorResult]

/-- Closed instance of the amended C3: an analyzer that raises. -/
theorem stage_exception_terminal_error_amended_witness :
    analyzerFailingOrchestrator.documentStep humanTrigger = Except.ok ([], "press release")
    ∧ (runGate analyzerFailingOrchestrator (afterDocs humanTrigger ([], "press release"))).2
        = Except.ok humanBypassResult
    ∧ humanBypassResult.passed = true
    ∧ analyzerFailingOrchestrator.deepAnalyzer
        = some (fun _ => (Except.error "llm timeout" : Except String Investigation))
    ∧ (∃ r, lastRecorded (processTrigger analyzerFailingOrchestrator humanTrigger)
          = some (TriggerStatus.error, r)
        ∧ strContains "llm timeout" r = true
        ∧ (processTrigger analyzerFailingOrchestrator humanTrigger).2.method
            = "pipeline_error") :=
  ⟨rfl, rfl, rfl, rfl,
   stage_exception_terminal_error_amended analyzerFailingOrchestrator humanTrigger
     ([], "press release") humanBypassResult "llm timeout" rfl rfl rfl
     (Or.inl ⟨fun _ => Except.error "llm timeout", rfl, rfl⟩)⟩

/-! ### Claim C4 -/

/-- Claim C4 counterexample: with a report repository reachable from the
deliverer but whose save raises, the delivery-failed report is not
persisted (the save failure is swallowed), refuting that the report is
persisted whenever a report-persistence collaborator is reachable. -/
theorem delivery_failure_persist_swallowed_cex :
    (reportRepoOf saveFailingOrchestrator).isSome = true
    ∧ (processTrigger saveFailingOrchestrator humanTrigger).1.savedReports = []
    ∧ (lastRecorded (processTrigger saveFailingOrchestrator humanTrigger)).map Prod.fst
        = some TriggerStatus.reported := by decide

/-- Claim C4 (amended): when report generation succeeds and the deliverer
raises, the run still ends at `reported` (not `error`) with a reason
noting the delivery failure, `process_trigger` returns the original gate
outcome, the report object is marked delivery-failed with its channels
cleared, and a save of that marked report is attempted whenever a report
repository is reachable from the deliverer or the generator — it is
persisted when that save succeeds (a failing save is swallowed). -/
theorem delivery_failure_reported_amended (o : Orchestrator) (t : TriggerEvent)
    (doc : List String × String) (gr : GateResult)
    (analyze : TriggerEvent → Except String Investigation) (inv : Investigation)
    (assess : Investigation → Except String Assessment) (assessment : Assessment)
    (generate : Investigation → Assessment → Except String Report) (rpt : Report)
    (deliver : Report → Except String (List String)) (m : String)
    (hdoc : o.documentStep t = Except.ok doc)
    (hgate : (runGate o (afterDocs t doc)).2 = Except.ok gr)
    (hpass : gr.passed = true)
    (han : o.deepAnalyzer = some analyze)
    (hinv : analyze (afterDocs t doc) = Except.ok inv)
    (hsig : inv.is_significant = true)
    (hda : o.decisionAssessor = some assess)
    (hassess : assess inv = Except.ok assessment)
    (hrg : o.reportGenerator = some generate)
    (hrpt : generate inv assessment = Except.ok rpt)
    (hrd : o.reportDeliverer = some deliver)
    (hdel : deliver rpt = Except.error m) :
    lastRecorded (processTrigger o t)
        = some (TriggerStatus.reported, "Report generated but delivery failed: " ++ m)
    ∧ (deliveryFailedReport rpt).delivery_status = ReportDeliveryStatus.delivery_failed
    ∧ (deliveryFailedReport rpt).delivered_via = []
    ∧ (∀ repo, reportRepoOf o = some repo →
        repo.save (deliveryFailedReport rpt) = Except.ok () →
        (processTrigger o t).1.savedReports = [deliveryFailedReport rpt])
    ∧ (processTrigger o t).2 = gr := by
  have hpost : runPostGatePipeline o (afterDocs t doc)
      = (⟨[(TriggerStatus.analyzing, "Starting deep analysis"),
           (TriggerStatus.analyzed, "Analysis complete. Significance: " ++ inv.significance),
           (TriggerStatus.assessing, "Starting decision assessment"),
           (TriggerStatus.assessed,
            "Assessment complete. Recommendation: " ++ assessment.new_recommendation),
           (TriggerStatus.reported, "Report generated but delivery failed: " ++ m)],
          postCalls 1 1 1 1, (persistDeliveryFailure o rpt).2⟩, Except.ok ()) := by
    simp [runPostGatePipeline, han, hinv, hsig, hda, hrg, hrd, hassess, hrpt, hdel]
  have hproc : processTrigger o t
      = (⟨[(TriggerStatus.gate_passed, gr.reason),
           (TriggerStatus.analyzing, "Starting deep analysis"),
           (TriggerStatus.analyzed, "Analysis complete. Significance: " ++ inv.significance),
           (TriggerStatus.assessing, "Starting decision assessment"),
           (TriggerStatus.assessed,
            "Assessment complete. Recommendation: " ++ assessment.new_recommendation),
           (TriggerStatus.reported, "Report generated but delivery failed: " ++ m)],
          withGateCalls (runGate o (afterDocs t doc)).1 (postCalls 1 1 1 1),
          (persistDeliveryFailure o rpt).2⟩, gr) := by
    simp [processTrigger, hdoc, hgate, hpass, hpost]
  refine ⟨by rw [hproc]; simp [lastRecorded], rfl, rfl, ?_, by rw [hproc]⟩
  intro repo hrepo hsave
  rw [hproc]
  simp [persistDeliveryFailure, hrepo, hsave]

/-- Closed instance of the amended C4: deliverer raises, save succeeds. -/
theorem delivery_failure_reported_amended_witness :
    savingDeliveryFailOrchestrator.documentStep humanTrigger = Except.ok ([], "press release")
    ∧ (runGate savingDeliveryFailOrchestrator (afterDocs humanTrigger ([], "press release"))).2
        = Except.ok humanBypassResult
    ∧ humanBypassResult.passed = true
    ∧ (lastRecorded (processTrigger savingDeliveryFailOrchestrator humanTrigger)
        = some (TriggerStatus.reported, "Report generated but delivery failed: " ++ "boom")
      ∧ (deliveryFailedReport ⟨"r1", ReportDeliveryStatus.generated, []⟩).delivery_status
          = ReportDeliveryStatus.delivery_failed
      ∧ (deliveryFailedReport ⟨"r1", ReportDeliveryStatus.generated, []⟩).delivered_via = []
      ∧ (∀ repo, reportRepoOf savingDeliveryFailOrchestrator = some repo →
          repo.save (deliveryFailedReport ⟨"r1", ReportDeliveryStatus.generated, []⟩)
            = Except.ok () →
          (processTrigger savingDeliveryFailOrchestrator humanTrigger).1.savedReports
            = [deliveryFailedReport ⟨"r1", ReportDeliveryStatus.generated, []⟩])
      ∧ (processTrigger savingDeliveryFailOrchestrator humanTrigger).2 = humanBypassResult) :=
  ⟨rfl, rfl, rfl,
   delivery_failure_reported_amended savingDeliveryFailOrchestrator humanTrigger
     ([], "press release") humanBypassResult
     (fun _ => Except.ok ⟨"high", true⟩) ⟨"high", true⟩
     (fun _ => Except.ok ⟨"buy"⟩) ⟨"buy"⟩
     (fun _ _ => Except.ok ⟨"r1", ReportDeliveryStatus.generated, []⟩)
     ⟨"r1", ReportDeliveryStatus.generated, []⟩
     (fun _ => Except.error "boom") "boom"
     rfl rfl rfl rfl rfl rfl rfl rfl rfl rfl rfl rfl⟩

/-! ### Claim C6 -/

/-- Claim C6 counterexample: the gate outcome returned for a human trigger
carries the method string "human_bypass", not "human bypass". -/
theorem human_bypass_method_string_cex :
    (processTrigger baseOrchestrator humanTrigger).2.passed = true
    ∧ ¬ (processTrigger baseOrchestrator humanTrigger).2.method = "human bypass"
    ∧ (processTrigger baseOrchestrator humanTrigger).2.method = "human_bypass" := by decide

/-- Claim C6 (amended): a trigger created by `create_human_trigger` has
`gate_passed` as the very first recorded status; processing a
human-sourced trigger records `gate_passed` with the bypass reason as the
first transition, invokes neither the watchlist filter nor the gate
classifier, and — when no stage exception occurs — returns the bypass gate
outcome with `passed = true` and method "human_bypass". -/
theorem human_trigger_bypass_amended (payload : HumanTriggerRequest)
    (trigger_id : String) (now : Nat) (o : Orchestrator) (t : TriggerEvent)
    (doc : List String × String)
    (h : t.source = TriggerSource.human)
    (hdoc : o.documentStep t = Except.ok doc)
    (hpost : (runPostGatePipeline o (afterDocs t doc)).2 = Except.ok ()) :
    ((create_human_trigger payload trigger_id now).status_history.head?).map
        StatusTransition.status = some TriggerStatus.gate_passed
    ∧ (processTrigger o t).1.calls.filterCalls = 0
    ∧ (processTrigger o t).1.calls.classifierCalls = 0
    ∧ (processTrigger o t).2 = humanBypassResult
    ∧ (processTrigger o t).1.statuses.head?
        = some (TriggerStatus.gate_passed, "Human trigger bypasses Layer 2 gate") := by
  have hsrc : (afterDocs t doc).source = TriggerSource.human := by
    simpa [afterDocs] using h
  have hgate : runGate o (afterDocs t doc) = ((0, 0), Except.ok humanBypassResult) := by
    simp [runGate, hsrc, humanBypassResult]
  refine ⟨by simp [create_human_trigger, TriggerEvent.set_status], ?_, ?_, ?_, ?_⟩ <;>
    simp [processTrigger, hdoc, hgate, hpost, humanBypassResult, withGateCalls, lastRecorded]

/-- Closed instance of the amended C6 at the sample payload and the fully
configured orchestrator. -/
theorem human_trigger_bypass_amended_witness :
    humanTrigger.source = TriggerSource.human
    ∧ baseOrchestrator.documentStep humanTrigger = Except.ok ([], "press release")
    ∧ (runPostGatePipeline baseOrchestrator (afterDocs humanTrigger ([], "press release"))).2
        = Except.ok ()
    ∧ (((create_human_trigger samplePayload "t-human" 0).status_history.head?).map
          StatusTransition.status = some TriggerStatus.gate_passed
      ∧ (processTrigger baseOrchestrator humanTrigger).1.calls.filterCalls = 0
      ∧ (processTrigger baseOrchestrator humanTrigger).1.calls.classifierCalls = 0
      ∧ (processTrigger baseOrchestrator humanTrigger).2 = humanBypassResult
      ∧ (processTrigger baseOrchestrator humanTrigger).1.statuses.head?
          = some (TriggerStatus.gate_passed, "Human trigger bypasses Layer 2 gate")) :=
  ⟨rfl, rfl, rfl,
   human_trigger_bypass_amended samplePayload "t-human" 0 baseOrchestrator humanTrigger
     ([], "press release") rfl rfl rfl⟩

/-! ### Claim C2 -/

/-- Claim C2 counterexample: with recent-history listing unsupported and
nothing remembered in this process, an announcement whose canonical source
URL matches nothing in the store is still skipped as a duplicate because
its attached document URL is checked against the store and matches a
persisted trigger's source URL — refuting that only the canonical source
URL is consulted. -/
theorem fallback_dedup_checks_document_urls_cex :
    (isDuplicate [storedDocUrlTrigger] freshFallbackState
        (announcementDedupKeys (fun u => u) (fun _ => "h") docUrlAnnouncement)).1 = true
    ∧ existsByUrl [storedDocUrlTrigger] docUrlAnnouncement.source_url = false
    ∧ freshFallbackState.known_dedup_keys = ∅
    ∧ freshFallbackState.supports_recent_listing = false := by decide

/-- Claim C2 (amended): when the store does not support recent-history
listing, an announcement is skipped as a duplicate exactly when some key
of its dedup-key set (canonical source URL and its base form, each
document URL and its base form, and the content fingerprint) is remembered
in this process, or some nonempty key of that set equals a persisted
trigger's source URL — the per-item fallback consults the store for every
key, not the canonical source URL alone. -/
theorem fallback_dedup_amended (store : List TriggerEvent) (st : PollerState)
    (baseUrl digest : String → String) (a : NormalizedAnnouncement)
    (hsup : st.supports_recent_listing = false) :
    (isDuplicate store st (announcementDedupKeys baseUrl digest a)).1 = true
      ↔ ((∃ k ∈ announcementDedupKeys baseUrl digest a, k ∈ st.known_dedup_keys)
        ∨ (∃ k ∈ announcementDedupKeys baseUrl digest a,
            k ≠ "" ∧ ∃ tr ∈ store, tr.source_url = some k)) := by
  constructor
  · intro hdup
    by_cases h1 : ((announcementDedupKeys baseUrl digest a) ∩ st.known_dedup_keys).Nonempty
    · obtain ⟨k, hk⟩ := h1
      obtain ⟨hkK, hkW⟩ := Finset.mem_inter.mp hk
      exact Or.inl ⟨k, hkK, hkW⟩
    · by_cases h2 : ((announcementDedupKeys baseUrl digest a).filter
          (fun key => key ≠ "" ∧ existsByUrl store key = true)).Nonempty
      · obtain ⟨k, hk⟩ := h2
        obtain ⟨hkK, hp⟩ := Finset.mem_filter.mp hk
        exact Or.inr ⟨k, hkK, hp.1, (existsByUrl_iff store k hp.1).mp hp.2⟩
      · exfalso
        simp [isDuplicate, h1, h2, hsup] at hdup
  · intro hor
    rcases hor with ⟨k, hkK, hkW⟩ | ⟨k, hkK, hne, tr, htr, hurl⟩
    · have h1 : ((announcementDedupKeys baseUrl digest a) ∩ st.known_dedup_keys).Nonempty :=
        ⟨k, Finset.mem_inter.mpr ⟨hkK, hkW⟩⟩
      simp [isDuplicate, h1]
    · by_cases h1 : ((announcementDedupKeys baseUrl digest a) ∩ st.known_dedup_keys).Nonempty
      · simp [isDuplicate, h1]
      · have h2 : ((announcementDedupKeys baseUrl digest a).filter
            (fun key => key ≠ "" ∧ existsByUrl store key = true)).Nonempty :=
          ⟨k, Finset.mem_filter.mpr
            ⟨hkK, hne, (existsByUrl_iff store k hne).mpr ⟨tr, htr, hurl⟩⟩⟩
        simp [isDuplicate, h1, h2, hsup]

/-- Closed instance of the amended C2 at the counterexample store and
announcement. -/
theorem fallback_dedup_amended_witness :
    freshFallbackState.supports_recent_listing = false
    ∧ ((isDuplicate [storedDocUrlTrigger] freshFallbackState
          (announcementDedupKeys (fun u => u) (fun _ => "h") docUrlAnnouncement)).1 = true
        ↔ ((∃ k ∈ announcementDedupKeys (fun u => u) (fun _ => "h") docUrlAnnouncement,
              k ∈ freshFallbackState.known_dedup_keys)
          ∨ (∃ k ∈ announcementDedupKeys (fun u => u) (fun _ => "h") docUrlAnnouncement,
              k ≠ "" ∧ ∃ tr ∈ [storedDocUrlTrigger], tr.source_url = some k))) :=
  ⟨rfl,
   fallback_dedup_amended [storedDocUrlTrigger] freshFallbackState
     (fun u => u) (fun _ => "h") docUrlAnnouncement rfl⟩

end TuJ
